import Mathlib

/-!
Verification of the deploy-rs profile-deployment core (src/deploy.rs).

The Rust source is shallowly embedded: the pure command builders become Lean
string functions, and the asynchronous orchestrator becomes a function from an
explicit environment (remote process outcomes plus the relative order of the
activation process's termination and the wait command's resolution) to the
result that the Rust code produces for that schedule.
-/

set_option maxRecDepth 8192

/-- An abstract stand-in for a Rust std io Error value (carries a message). -/
structure IoError where
  msg : String
  deriving DecidableEq, Repr

/-- Outcome of running a remote process: either the transport itself failed
(the Err branch of a Rust Result around status or wait_with_output), or the
process ran and terminated with an optional exit code (None models abnormal
termination, as ExitStatus.code does). -/
inductive ProcResult where
  | err (e : IoError)
  | exited (code : Option Int)
  deriving DecidableEq, Repr

/-- Mirrors struct ActivateCommandData in src/deploy.rs (fields in source order;
the source field sudo is renamed sudo_cmd because sudo is a Mathlib keyword). -/
structure ActivateCommandData where
  sudo_cmd : Option String
  profile_path : String
  closure : String
  auto_rollback : Bool
  temp_path : String
  confirm_timeout : Nat
  magic_rollback : Bool
  debug_logs : Bool
  log_dir : Option String
  deriving DecidableEq, Repr

/-- Mirrors fn build_activate_command in src/deploy.rs lines 23-57: the chain of
format! calls, one let per reassignment of self_activate_command. -/
def build_activate_command (data : ActivateCommandData) : String :=
  let c1 := data.closure ++ "/activate-rs"
  let c2 := if data.debug_logs then c1 ++ " --debug-logs" else c1
  let c3 := match data.log_dir with
    | some log_dir => c2 ++ " --log-dir " ++ log_dir
    | none => c2
  let c4 := c3 ++ " --temp-path '" ++ data.temp_path ++ "' activate '"
    ++ data.closure ++ "' '" ++ data.profile_path ++ "'"
  let c5 := c4 ++ " --confirm-timeout " ++ toString data.confirm_timeout
  let c6 := if data.magic_rollback then c5 ++ " --magic-rollback" else c5
  let c7 := if data.auto_rollback then c6 ++ " --auto-rollback" else c6
  match data.sudo_cmd with
  | some sc => sc ++ " " ++ c7
  | none => c7

/-- Mirrors struct WaitCommandData in src/deploy.rs (fields in source order;
sudo renamed sudo_cmd as above). -/
structure WaitCommandData where
  sudo_cmd : Option String
  closure : String
  temp_path : String
  debug_logs : Bool
  log_dir : Option String
  deriving DecidableEq, Repr

/-- Mirrors fn build_wait_command in src/deploy.rs lines 96-117. -/
def build_wait_command (data : WaitCommandData) : String :=
  let c1 := data.closure ++ "/activate-rs"
  let c2 := if data.debug_logs then c1 ++ " --debug-logs" else c1
  let c3 := match data.log_dir with
    | some log_dir => c2 ++ " --log-dir " ++ log_dir
    | none => c2
  let c4 := c3 ++ " --temp-path '" ++ data.temp_path ++ "' wait '" ++ data.closure ++ "'"
  match data.sudo_cmd with
  | some sc => sc ++ " " ++ c4
  | none => c4

/-- The activation command as the spec words it (section 4.1): start from
closure/activate-rs, append each guarded part in the fixed order, then
prepend the privilege-escalation prefix when present. Written from the
spec's sentences, to be compared with the source-derived definition. -/
def activateCommandSpec (data : ActivateCommandData) : String :=
  let base := data.closure ++ "/activate-rs"
    ++ (if data.debug_logs then " --debug-logs" else "")
    ++ (match data.log_dir with
        | some dir => " --log-dir " ++ dir
        | none => "")
    ++ " --temp-path '" ++ data.temp_path ++ "' activate '"
    ++ data.closure ++ "' '" ++ data.profile_path ++ "'"
    ++ " --confirm-timeout " ++ toString data.confirm_timeout
    ++ (if data.magic_rollback then " --magic-rollback" else "")
    ++ (if data.auto_rollback then " --auto-rollback" else "")
  match data.sudo_cmd with
  | some p => p ++ " " ++ base
  | none => base

/-- The wait command as the spec words it (section 4.1): same prefix and
debug/log-dir rules, mandatory wait segment, no confirm-timeout or rollback
flags. Written from the spec's sentences. -/
def waitCommandSpec (data : WaitCommandData) : String :=
  let base := data.closure ++ "/activate-rs"
    ++ (if data.debug_logs then " --debug-logs" else "")
    ++ (match data.log_dir with
        | some dir => " --log-dir " ++ dir
        | none => "")
    ++ " --temp-path '" ++ data.temp_path ++ "' wait '" ++ data.closure ++ "'"
  match data.sudo_cmd with
  | some p => p ++ " " ++ base
  | none => base

def spaceChar : Char := Char.ofNat 32

def slashChar : Char := Char.ofNat 47

def quoteChar : Char := Char.ofNat 39

/-- Mirrors enum ConfirmProfileError in src/deploy.rs lines 140-148. -/
inductive ConfirmProfileError where
  | SSHConfirmError (e : IoError)
  | SSHConfirmExitError (code : Option Int)
  deriving DecidableEq, Repr

/-- Modelled from the spec: make_lock_path is defined outside src/deploy.rs
(referenced there as super::make_lock_path); section 6 of the spec specifies it
only as a pure, deterministic function of the temp path and the profile path,
so any concrete such function serves; no claim depends on its exact output. -/
def make_lock_path (temp_path profile_path : String) : String :=
  temp_path ++ "/deploy-rs-lock" ++ profile_path

/-- Modelled from the spec (section 6): the profile settings view read by
src/deploy.rs (deploy_data.profile.profile_settings.path, the closure path). -/
structure ProfileSettings where
  path : String
  deriving DecidableEq, Repr

structure Profile where
  profile_settings : ProfileSettings
  deriving DecidableEq, Repr

/-- Modelled from the spec (section 6): the node settings view read by
src/deploy.rs (the node's declared hostname). -/
structure NodeSettings where
  hostname : String
  deriving DecidableEq, Repr

structure Node where
  node_settings : NodeSettings
  deriving DecidableEq, Repr

/-- Modelled from the spec (section 6): the operator hostname override. -/
structure CmdOverrides where
  hostname : Option String
  deriving DecidableEq, Repr

/-- Modelled from the spec (section 6): the merged settings object; only the
fields read by src/deploy.rs are included. -/
structure MergedSettings where
  ssh_opts : List String
  temp_path : Option String
  confirm_timeout : Option Nat
  magic_rollback : Option Bool
  auto_rollback : Option Bool
  deriving DecidableEq, Repr

/-- Modelled from the spec (section 6): the deploy-data view consumed by
src/deploy.rs. -/
structure DeployData where
  profile_name : String
  node_name : String
  merged_settings : MergedSettings
  profile : Profile
  node : Node
  cmd_overrides : CmdOverrides
  debug_logs : Bool
  log_dir : Option String
  deriving DecidableEq, Repr

/-- Modelled from the spec (section 6): the deploy-defs object (sudo prefix,
on-host profile path, ssh user); sudo renamed sudo_cmd as above. -/
structure DeployDefs where
  sudo_cmd : Option String
  profile_path : String
  ssh_user : String
  deriving DecidableEq, Repr

/-- The confirmation command string built by confirm_profile
(src/deploy.rs lines 163-168): rm of the lock path, sudo-prefixed if present. -/
def confirm_profile_command (dd : DeployData) (defs : DeployDefs)
    (temp_path : String) : String :=
  let lock_path := make_lock_path temp_path dd.profile.profile_settings.path
  let c := "rm " ++ lock_path
  match defs.sudo_cmd with
  | some sc => sc ++ " " ++ c
  | none => c

/-- Mirrors fn confirm_profile, src/deploy.rs lines 150-189: the outcome of the
remote rm command (supplied by the environment as run_result) is mapped to the
function result; exit code Some(0) is the sole success (line 182), a transport
error maps to SSHConfirmError (line 179), anything else to SSHConfirmExitError
carrying the optional code (line 183). -/
def confirm_profile (dd : DeployData) (defs : DeployDefs) (temp_path : String)
    (ssh_addr : String) (run_result : ProcResult) : Except ConfirmProfileError Unit :=
  match run_result with
  | .err e => .error (.SSHConfirmError e)
  | .exited code =>
      if code = some 0 then .ok () else .error (.SSHConfirmExitError code)

/-- Mirrors enum DeployProfileError in src/deploy.rs lines 191-208. -/
inductive DeployProfileError where
  | SSHSpawnActivateError (e : IoError)
  | SSHActivateError (e : IoError)
  | SSHActivateExitError (code : Option Int)
  | SSHWaitError (e : IoError)
  | SSHWaitExitError (code : Option Int)
  | ConfirmError (e : ConfirmProfileError)
  deriving DecidableEq, Repr

/-- How a call to deploy_profile ends: returning Ok, returning Err, or
panicking (an unwrap on a failed oneshot send/receive; a Rust panic is neither
of the two Result values, so it is modelled as a third outcome). -/
inductive DeployOutcome where
  | ok
  | err (e : DeployProfileError)
  | panicked
  deriving DecidableEq, Repr

/-- The environment of one magic-rollback deployment: what the remote world and
the scheduler do. spawnErr is the Err case of the spawn call (line 284);
activateRes is the eventual outcome of wait_with_output on the activation
process (line 300); waitRes is the outcome of the wait command status (line
318); confirmRes is the outcome of the confirmation rm command; and
activateBeforeWait records the schedule: true iff the activation process
terminates (and its oneshot notification is delivered) strictly before the
wait command resolves, so that the select at line 317 is decided by the
recv_activate branch; false iff the wait command resolves strictly first.
Simultaneous resolution is not modelled. In simple (non-magic) mode only
activateRes is consulted (the status call at line 261). -/
structure Env where
  spawnErr : Option IoError
  activateRes : ProcResult
  waitRes : ProcResult
  confirmRes : ProcResult
  activateBeforeWait : Bool
  deriving DecidableEq, Repr

/-- Everything observable about one deploy_profile call: its outcome, the
activate command string it constructed, the wait command string it constructed
(none in simple mode), whether the wait command was actually issued, the temp
path passed to confirm_profile and the confirmation command (none when the
confirmation handshake was not invoked), and whether the recv_activated
notification (line 334) was awaited on the path taken. -/
structure DeployResult where
  outcome : DeployOutcome
  activateCmd : String
  waitCmd : Option String
  waitRan : Bool
  confirmTemp : Option String
  confirmCmd : Option String
  awaitedActivated : Bool
  deriving DecidableEq, Repr

/-- Mirrors the maybe_err computation of the spawned activation-await task,
src/deploy.rs lines 302-308. -/
def activate_error : ProcResult → Option DeployProfileError
  | .err e => some (.SSHActivateError e)
  | .exited code =>
      if code = some 0 then none else some (.SSHActivateExitError code)

/-- True iff a process outcome is a clean zero exit. -/
def exit_zero : ProcResult → Bool
  | .err _ => false
  | .exited code => code == some 0

/-- Mirrors fn deploy_profile, src/deploy.rs lines 210-339, as a function of
the environment (remote outcomes plus schedule).

Magic-rollback path, following the source closely: after a successful spawn,
the spawned task awaits the activation process and, on failure, sends the
error through the send_activate oneshot, then sends () through send_activated
(lines 299-315); the main task races the wait command against recv_activate
(lines 317-329).

If the activation process terminates first (env.activateBeforeWait = true),
the recv_activate future is ready before the wait status: with a failing
activation it holds Ok(err) and the select returns that error (line 327)
without awaiting recv_activated; with a succeeding activation the task never
sends and drops send_activate, recv_activate yields Err(RecvError), and
x.unwrap() at line 327 panics.

If the wait command resolves first, its failure returns at once (lines
320-323, again without awaiting recv_activated); its success runs
confirm_profile and then recv_activated.await.unwrap() (lines 333-334): if the
activation process has failed or fails later, the task's
send_activate.send(err).unwrap() at line 311 panics because recv_activate was
dropped when the select completed, send_activated is dropped unsent, and the
main unwrap at line 334 panics; otherwise the confirm result is returned via
c? (line 335). -/
def deploy_profile (dd : DeployData) (defs : DeployDefs) (env : Env) : DeployResult :=
  let temp_path := (dd.merged_settings.temp_path).getD ("/tmp")
  let confirm_timeout := (dd.merged_settings.confirm_timeout).getD 30
  let magic_rollback := (dd.merged_settings.magic_rollback).getD true
  let auto_rollback := (dd.merged_settings.auto_rollback).getD true
  let self_activate_command := build_activate_command
    { sudo_cmd := defs.sudo_cmd, profile_path := defs.profile_path,
      closure := dd.profile.profile_settings.path, auto_rollback := auto_rollback,
      temp_path := temp_path, confirm_timeout := confirm_timeout,
      magic_rollback := magic_rollback, debug_logs := dd.debug_logs,
      log_dir := dd.log_dir }
  let hostname := (dd.cmd_overrides.hostname).getD dd.node.node_settings.hostname
  let ssh_addr := defs.ssh_user ++ "@" ++ hostname
  if !magic_rollback then
    match env.activateRes with
    | .err e =>
        { outcome := .err (.SSHActivateError e), activateCmd := self_activate_command,
          waitCmd := none, waitRan := false, confirmTemp := none, confirmCmd := none,
          awaitedActivated := false }
    | .exited code =>
        if code = some 0 then
          { outcome := .ok, activateCmd := self_activate_command,
            waitCmd := none, waitRan := false, confirmTemp := none, confirmCmd := none,
            awaitedActivated := false }
        else
          { outcome := .err (.SSHActivateExitError code),
            activateCmd := self_activate_command,
            waitCmd := none, waitRan := false, confirmTemp := none, confirmCmd := none,
            awaitedActivated := false }
  else
    let self_wait_command := build_wait_command
      { sudo_cmd := defs.sudo_cmd, closure := dd.profile.profile_settings.path,
        temp_path := temp_path, debug_logs := dd.debug_logs, log_dir := dd.log_dir }
    match env.spawnErr with
    | some e =>
        { outcome := .err (.SSHSpawnActivateError e), activateCmd := self_activate_command,
          waitCmd := some self_wait_command, waitRan := false, confirmTemp := none,
          confirmCmd := none, awaitedActivated := false }
    | none =>
      if env.activateBeforeWait then
        match activate_error env.activateRes with
        | some e =>
            { outcome := .err e, activateCmd := self_activate_command,
              waitCmd := some self_wait_command, waitRan := true, confirmTemp := none,
              confirmCmd := none, awaitedActivated := false }
        | none =>
            { outcome := .panicked, activateCmd := self_activate_command,
              waitCmd := some self_wait_command, waitRan := true, confirmTemp := none,
              confirmCmd := none, awaitedActivated := false }
      else
        match env.waitRes with
        | .err e =>
            { outcome := .err (.SSHWaitError e), activateCmd := self_activate_command,
              waitCmd := some self_wait_command, waitRan := true, confirmTemp := none,
              confirmCmd := none, awaitedActivated := false }
        | .exited code =>
            if code = some 0 then
              let c := confirm_profile dd defs temp_path ssh_addr env.confirmRes
              match activate_error env.activateRes with
              | some _ =>
                  { outcome := .panicked, activateCmd := self_activate_command,
                    waitCmd := some self_wait_command, waitRan := true,
                    confirmTemp := some temp_path,
                    confirmCmd := some (confirm_profile_command dd defs temp_path),
                    awaitedActivated := true }
              | none =>
                  match c with
                  | .ok _ =>
                      { outcome := .ok, activateCmd := self_activate_command,
                        waitCmd := some self_wait_command, waitRan := true,
                        confirmTemp := some temp_path,
                        confirmCmd := some (confirm_profile_command dd defs temp_path),
                        awaitedActivated := true }
                  | .error ce =>
                      { outcome := .err (.ConfirmError ce),
                        activateCmd := self_activate_command,
                        waitCmd := some self_wait_command, waitRan := true,
                        confirmTemp := some temp_path,
                        confirmCmd := some (confirm_profile_command dd defs temp_path),
                        awaitedActivated := true }
            else
              { outcome := .err (.SSHWaitExitError code),
                activateCmd := self_activate_command,
                waitCmd := some self_wait_command, waitRan := true, confirmTemp := none,
                confirmCmd := none, awaitedActivated := false }

/-- Sample settings with every optional setting unset. -/
def sampleSettings : MergedSettings :=
  { ssh_opts := [], temp_path := none, confirm_timeout := none,
    magic_rollback := none, auto_rollback := none }

/-- Sample deploy data (values of the repository unit tests). -/
def sampleData : DeployData :=
  { profile_name := "system", node_name := "example",
    merged_settings := sampleSettings,
    profile := { profile_settings := { path := "/nix/store/blah/etc" } },
    node := { node_settings := { hostname := "example.com" } },
    cmd_overrides := { hostname := none },
    debug_logs := true, log_dir := some ("/tmp/something.txt") }

/-- Sample deploy defs (values of the repository unit tests). -/
def sampleDefs : DeployDefs :=
  { sudo_cmd := some ("sudo -u test"), profile_path := "/blah/profiles/test",
    ssh_user := "admin" }

/-- Environment where the wait command succeeds first and the activation
process afterwards exits with code 1; the confirmation rm would succeed. -/
def envLateActivationFailure : Env :=
  { spawnErr := none, activateRes := .exited (some 1), waitRes := .exited (some 0),
    confirmRes := .exited (some 0), activateBeforeWait := false }

/-- Environment where the activation process exits with code 1 strictly before
the wait command resolves. -/
def envPreempt : Env :=
  { spawnErr := none, activateRes := .exited (some 1), waitRes := .exited (some 0),
    confirmRes := .exited (some 0), activateBeforeWait := true }

/-- Environment for the clean magic-rollback success path: wait resolves first
with 0, activation then exits 0, confirmation rm exits 0. -/
def envHappy : Env :=
  { spawnErr := none, activateRes := .exited (some 0), waitRes := .exited (some 0),
    confirmRes := .exited (some 0), activateBeforeWait := false }

/-- Sample settings with magic-rollback explicitly disabled. -/
def simpleModeSettings : MergedSettings :=
  { sampleSettings with magic_rollback := some false }

/-- Sample deploy data running in simple (non-magic) mode. -/
def simpleModeData : DeployData :=
  { sampleData with merged_settings := simpleModeSettings }

/-- Environment where activation and wait both exit 0 (wait first) but the
confirmation rm exits 1. -/
def envConfirmFail : Env :=
  { spawnErr := none, activateRes := .exited (some 0), waitRes := .exited (some 0),
    confirmRes := .exited (some 1), activateBeforeWait := false }

lemma string_data_append (a b : String) : (a ++ b).data = a.data ++ b.data := by
  cases a; cases b; rfl

lemma string_eq_of_data : ∀ {a b : String}, a.data = b.data → a = b
  | ⟨_⟩, ⟨_⟩, h => congrArg String.mk h

/-- The repository's own unit test test_activation_command_builder
(src/deploy.rs lines 59-86), checked against the embedding. -/
theorem test_activation_command_builder :
    build_activate_command
      { sudo_cmd := some ("sudo -u test"), profile_path := "/blah/profiles/test",
        closure := "/nix/store/blah/etc", auto_rollback := true, temp_path := "/tmp",
        confirm_timeout := 30, magic_rollback := true, debug_logs := true,
        log_dir := some ("/tmp/something.txt") } =
    "sudo -u test /nix/store/blah/etc/activate-rs --debug-logs --log-dir /tmp/something.txt --temp-path '/tmp' activate '/nix/store/blah/etc' '/blah/profiles/test' --confirm-timeout 30 --magic-rollback --auto-rollback" := by
  decide

/-- The repository's own unit test test_wait_command_builder
(src/deploy.rs lines 119-138), checked against the embedding. -/
theorem test_wait_command_builder :
    build_wait_command
      { sudo_cmd := some ("sudo -u test"), closure := "/nix/store/blah/etc",
        temp_path := "/tmp", debug_logs := true, log_dir := some ("/tmp/something.txt") } =
    "sudo -u test /nix/store/blah/etc/activate-rs --debug-logs --log-dir /tmp/something.txt --temp-path '/tmp' wait '/nix/store/blah/etc'" := by
  decide

/-- Claim C4: build_activate_command produces exactly the spec's string: from
closure/activate-rs, --debug-logs iff debug, --log-dir iff present, then the
mandatory temp-path/activate segment, then --confirm-timeout, then
--magic-rollback iff set, then --auto-rollback iff set, in that fixed order;
and a present privilege-escalation prefix yields exactly the prefix, a space,
and the unprefixed command. -/
theorem build_activate_command_correct (d : ActivateCommandData) :
    build_activate_command d = activateCommandSpec d ∧
    (∀ p, d.sudo_cmd = some p →
      build_activate_command d = p ++ " " ++ build_activate_command { d with sudo_cmd := none }) := by
  constructor
  · apply string_eq_of_data
    obtain ⟨s, pp, c, ar, tp, ct, mr, dl, ld⟩ := d
    cases s <;> cases ar <;> cases mr <;> cases dl <;> cases ld <;>
      simp [build_activate_command, activateCommandSpec, string_data_append,
        List.append_assoc]
  · intro p hp
    obtain ⟨s, pp, c, ar, tp, ct, mr, dl, ld⟩ := d
    cases hp
    rfl

/-- Witness for build_activate_command_correct at dataset of the repository's
unit test, discharging the sudo-present hypothesis. -/
theorem build_activate_command_correct_witness :
    build_activate_command
      { sudo_cmd := some ("sudo -u test"), profile_path := "/blah/profiles/test",
        closure := "/nix/store/blah/etc", auto_rollback := true, temp_path := "/tmp",
        confirm_timeout := 30, magic_rollback := true, debug_logs := true,
        log_dir := some ("/tmp/something.txt") } =
    "sudo -u test" ++ " " ++ build_activate_command
      { sudo_cmd := none, profile_path := "/blah/profiles/test",
        closure := "/nix/store/blah/etc", auto_rollback := true, temp_path := "/tmp",
        confirm_timeout := 30, magic_rollback := true, debug_logs := true,
        log_dir := some ("/tmp/something.txt") } :=
  (build_activate_command_correct _).2 ("sudo -u test") rfl

lemma prefix_through_sep {c : Char} :
    ∀ {t zs ys : List Char}, c ∉ t → t <+: zs ++ c :: ys → t <+: zs
  | [], _, _, _, _ => List.nil_prefix
  | a :: t', [], ys, hct, h => by
      obtain ⟨r, hr⟩ := h
      rw [List.nil_append, List.cons_append] at hr
      injection hr with h1 _
      subst h1
      exact absurd (List.mem_cons_self _ _) hct
  | a :: t', b :: zs', ys, hct, h => by
      obtain ⟨r, hr⟩ := h
      rw [List.cons_append, List.cons_append] at hr
      injection hr with h1 h2
      obtain ⟨r', hr'⟩ := @prefix_through_sep c t' zs' ys
        (fun hm => hct (List.mem_cons_of_mem a hm)) ⟨r, h2⟩
      subst h1
      exact ⟨r', by rw [List.cons_append, hr']⟩

lemma infix_through_sep {c : Char} {t : List Char} (hct : c ∉ t) :
    ∀ {xs ys : List Char}, t <:+: xs ++ c :: ys → t <:+: xs ∨ t <:+: ys := by
  intro xs
  induction xs with
  | nil =>
    intro ys h
    rw [List.nil_append] at h
    rcases List.infix_cons_iff.mp h with h1 | h1
    · cases t with
      | nil => exact Or.inl List.nil_infix
      | cons a t' =>
        obtain ⟨r, hr⟩ := h1
        rw [List.cons_append] at hr
        injection hr with h2 _
        subst h2
        exact absurd (List.mem_cons_self _ _) hct
    · exact Or.inr h1
  | cons x xs ih =>
    intro ys h
    rw [List.cons_append] at h
    rcases List.infix_cons_iff.mp h with h1 | h1
    · refine Or.inl (List.IsPrefix.isInfix
        (@prefix_through_sep c t (x :: xs) ys hct ?_))
      rw [List.cons_append]
      exact h1
    · rcases ih h1 with h2 | h2
      · exact Or.inl (h2.trans (List.suffix_cons x xs).isInfix)
      · exact Or.inr h2

lemma not_infix_sep {t xs ys : List Char} {c : Char} (hct : c ∉ t)
    (h1 : ¬ t <:+: xs) (h2 : ¬ t <:+: ys) : ¬ t <:+: xs ++ c :: ys :=
  fun h => (infix_through_sep hct h).elim h1 h2

lemma not_infix_nil {t : List Char} (hne : t ≠ []) : ¬ t <:+: [] :=
  fun h => hne (List.infix_nil.mp h)

lemma not_infix_cons {t ys : List Char} {c : Char} (hct : c ∉ t) (hne : t ≠ [])
    (h2 : ¬ t <:+: ys) : ¬ t <:+: c :: ys := by
  intro h
  rcases @infix_through_sep c t hct [] ys (by simpa using h) with h1 | h1
  · exact not_infix_nil hne h1
  · exact h2 h1

lemma data_space : (" ").data = spaceChar :: [] := by decide

lemma data_slash_act : ("/activate-rs").data = slashChar :: ("activate-rs").data := by
  decide

lemma data_dbg : (" --debug-logs").data = spaceChar :: ("--debug-logs").data := by
  decide

lemma data_logdir : (" --log-dir ").data =
    spaceChar :: (("--log-dir").data ++ (spaceChar :: [])) := by decide

lemma data_temp_wait : (" --temp-path '").data =
    spaceChar :: (("--temp-path").data ++ (spaceChar :: (quoteChar :: []))) := by decide

lemma data_wait_q : ("' wait '").data =
    quoteChar :: (spaceChar :: (("wait").data ++ (spaceChar :: (quoteChar :: [])))) := by
  decide

lemma data_q : ("'").data = quoteChar :: [] := by decide

lemma wait_no_flag (t : List Char) (sc : Option String) (c tp : String)
    (dbg : Bool) (ld : Option String)
    (hsp : spaceChar ∉ t) (hsl : slashChar ∉ t) (hq : quoteChar ∉ t) (hne : t ≠ [])
    (hwa : ¬ t <:+: ("activate-rs").data) (hwd : ¬ t <:+: ("--debug-logs").data)
    (hwl : ¬ t <:+: ("--log-dir").data) (hwt : ¬ t <:+: ("--temp-path").data)
    (hww : ¬ t <:+: ("wait").data)
    (hsc : ∀ s, sc = some s → ¬ t <:+: s.data)
    (hc : ¬ t <:+: c.data) (htp : ¬ t <:+: tp.data)
    (hld : ∀ l, ld = some l → ¬ t <:+: l.data) :
    ¬ t <:+: (build_wait_command
      { sudo_cmd := sc, closure := c, temp_path := tp, debug_logs := dbg,
        log_dir := ld }).data := by
  have htail : ∀ R, ¬ t <:+: R →
      ¬ t <:+: (("--temp-path").data ++ (spaceChar :: (quoteChar :: (tp.data ++
        (quoteChar :: (spaceChar :: (("wait").data ++ (spaceChar :: (quoteChar ::
        (c.data ++ (quoteChar :: R))))))))))) := by
    intro R hR
    exact not_infix_sep hsp hwt (not_infix_cons hq hne (not_infix_sep hq htp
      (not_infix_cons hsp hne (not_infix_sep hsp hww (not_infix_cons hq hne
        (not_infix_sep hq hc hR))))))
  cases sc with
  | none =>
    cases dbg with
    | false =>
      cases ld with
      | none =>
        simp only [build_wait_command, Bool.false_eq_true, if_false,
          string_data_append, data_slash_act, data_temp_wait, data_q,
          List.append_assoc, List.cons_append, List.nil_append]
        exact not_infix_sep hsl hc (not_infix_sep hsp hwa
          (htail _ (not_infix_nil hne)))
      | some l =>
        simp only [build_wait_command, Bool.false_eq_true, if_false,
          string_data_append, data_slash_act, data_logdir, data_temp_wait, data_q,
          List.append_assoc, List.cons_append, List.nil_append]
        exact not_infix_sep hsl hc (not_infix_sep hsp hwa (not_infix_sep hsp hwl
          (not_infix_sep hsp (hld l rfl) (htail _ (not_infix_nil hne)))))
    | true =>
      cases ld with
      | none =>
        simp only [build_wait_command, if_true, string_data_append,
          data_slash_act, data_dbg, data_temp_wait, data_q,
          List.append_assoc, List.cons_append, List.nil_append]
        exact not_infix_sep hsl hc (not_infix_sep hsp hwa (not_infix_sep hsp hwd
          (htail _ (not_infix_nil hne))))
      | some l =>
        simp only [build_wait_command, if_true, string_data_append,
          data_slash_act, data_dbg, data_logdir, data_temp_wait, data_q,
          List.append_assoc, List.cons_append, List.nil_append]
        exact not_infix_sep hsl hc (not_infix_sep hsp hwa (not_infix_sep hsp hwd
          (not_infix_sep hsp hwl (not_infix_sep hsp (hld l rfl)
            (htail _ (not_infix_nil hne))))))
  | some s =>
    cases dbg with
    | false =>
      cases ld with
      | none =>
        simp only [build_wait_command, Bool.false_eq_true, if_false,
          string_data_append, data_space, data_slash_act, data_temp_wait, data_q,
          List.append_assoc, List.cons_append, List.nil_append]
        exact not_infix_sep hsp (hsc s rfl) (not_infix_sep hsl hc
          (not_infix_sep hsp hwa (htail _ (not_infix_nil hne))))
      | some l =>
        simp only [build_wait_command, Bool.false_eq_true, if_false,
          string_data_append, data_space, data_slash_act, data_logdir,
          data_temp_wait, data_q,
          List.append_assoc, List.cons_append, List.nil_append]
        exact not_infix_sep hsp (hsc s rfl) (not_infix_sep hsl hc
          (not_infix_sep hsp hwa (not_infix_sep hsp hwl
            (not_infix_sep hsp (hld l rfl) (htail _ (not_infix_nil hne))))))
    | true =>
      cases ld with
      | none =>
        simp only [build_wait_command, if_true, string_data_append,
          data_space, data_slash_act, data_dbg, data_temp_wait, data_q,
          List.append_assoc, List.cons_append, List.nil_append]
        exact not_infix_sep hsp (hsc s rfl) (not_infix_sep hsl hc
          (not_infix_sep hsp hwa (not_infix_sep hsp hwd
            (htail _ (not_infix_nil hne)))))
      | some l =>
        simp only [build_wait_command, if_true, string_data_append,
          data_space, data_slash_act, data_dbg, data_logdir, data_temp_wait, data_q,
          List.append_assoc, List.cons_append, List.nil_append]
        exact not_infix_sep hsp (hsc s rfl) (not_infix_sep hsl hc
          (not_infix_sep hsp hwa (not_infix_sep hsp hwd (not_infix_sep hsp hwl
            (not_infix_sep hsp (hld l rfl) (htail _ (not_infix_nil hne)))))))

/-- Claim C5: build_wait_command produces exactly the spec's wait string (same
prefix and --debug-logs / --log-dir rules as the activate builder, mandatory
segment --temp-path , wait , closure), a present privilege-escalation prefix
yields exactly the prefix, a space, and the unprefixed command, and — provided
none of the free-form option fields themselves contain the flag text — the
output never contains --confirm-timeout, --magic-rollback or --auto-rollback. -/
theorem build_wait_command_correct (d : WaitCommandData) :
    build_wait_command d = waitCommandSpec d ∧
    (∀ p, d.sudo_cmd = some p →
      build_wait_command d = p ++ " " ++ build_wait_command { d with sudo_cmd := none }) ∧
    (∀ t : List Char,
      t = ("--confirm-timeout").data ∨ t = ("--magic-rollback").data ∨
        t = ("--auto-rollback").data →
      (∀ s, d.sudo_cmd = some s → ¬ t <:+: s.data) →
      ¬ t <:+: d.closure.data → ¬ t <:+: d.temp_path.data →
      (∀ l, d.log_dir = some l → ¬ t <:+: l.data) →
      ¬ t <:+: (build_wait_command d).data) := by
  refine ⟨?_, ?_, ?_⟩
  · apply string_eq_of_data
    obtain ⟨s, c, tp, dl, ld⟩ := d
    cases s <;> cases dl <;> cases ld <;>
      simp [build_wait_command, waitCommandSpec, string_data_append, List.append_assoc]
  · intro p hp
    obtain ⟨s, c, tp, dl, ld⟩ := d
    cases hp
    rfl
  · intro t hflag hsc hc htp hld
    obtain ⟨s, c, tp, dl, ld⟩ := d
    rcases hflag with h | h | h <;> subst h <;>
      exact wait_no_flag _ _ _ _ _ _ (by decide) (by decide) (by decide) (by decide)
        (by decide) (by decide) (by decide) (by decide) (by decide) hsc hc htp hld

/-- Witness for build_wait_command_correct: at the repository unit test's data,
the built wait command does not contain the substring --magic-rollback. -/
theorem build_wait_command_correct_witness :
    ¬ ("--magic-rollback").data <:+: (build_wait_command
      { sudo_cmd := some ("sudo -u test"), closure := "/nix/store/blah/etc",
        temp_path := "/tmp", debug_logs := true,
        log_dir := some ("/tmp/something.txt") }).data := by
  refine (build_wait_command_correct _).2.2 _ (Or.inr (Or.inl rfl)) ?_ ?_ ?_ ?_
  · intro s hs
    injection hs with h
    subst h
    decide
  · decide
  · decide
  · intro l hl
    injection hl with h
    subst h
    decide

lemma deploy_profile_activateCmd (dd : DeployData) (defs : DeployDefs) (env : Env) :
    (deploy_profile dd defs env).activateCmd = build_activate_command
      { sudo_cmd := defs.sudo_cmd, profile_path := defs.profile_path,
        closure := dd.profile.profile_settings.path,
        auto_rollback := (dd.merged_settings.auto_rollback).getD true,
        temp_path := (dd.merged_settings.temp_path).getD ("/tmp"),
        confirm_timeout := (dd.merged_settings.confirm_timeout).getD 30,
        magic_rollback := (dd.merged_settings.magic_rollback).getD true,
        debug_logs := dd.debug_logs, log_dir := dd.log_dir } := by
  simp only [deploy_profile]
  repeat' split
  all_goals rfl

lemma deploy_profile_waitCmd (dd : DeployData) (defs : DeployDefs) (env : Env) :
    (deploy_profile dd defs env).waitCmd =
      (if (dd.merged_settings.magic_rollback).getD true then
        some (build_wait_command
          { sudo_cmd := defs.sudo_cmd, closure := dd.profile.profile_settings.path,
            temp_path := (dd.merged_settings.temp_path).getD ("/tmp"),
            debug_logs := dd.debug_logs, log_dir := dd.log_dir })
       else none) := by
  cases hmg : (dd.merged_settings.magic_rollback).getD true <;>
    simp only [deploy_profile, hmg] <;>
    repeat' split
  all_goals simp_all

/-- Claim C6: confirm_profile returns Ok iff the remote rm command ran and
exited with code exactly 0; any transport failure yields SSHConfirmError with
that error; any non-zero or absent exit code yields SSHConfirmExitError
carrying that code (None standing for abnormal termination). -/
theorem confirm_profile_correct (dd : DeployData) (defs : DeployDefs)
    (temp_path ssh_addr : String) (res : ProcResult) :
    (confirm_profile dd defs temp_path ssh_addr res = .ok () ↔
      res = .exited (some 0)) ∧
    (∀ e, res = .err e →
      confirm_profile dd defs temp_path ssh_addr res = .error (.SSHConfirmError e)) ∧
    (∀ a, res = .exited a → a ≠ some 0 →
      confirm_profile dd defs temp_path ssh_addr res =
        .error (.SSHConfirmExitError a)) := by
  rcases res with e | code
  · simp [confirm_profile]
  · by_cases h0 : code = some 0
    · subst h0
      simp [confirm_profile]
    · simp [confirm_profile, h0]

/-- Witness for confirm_profile_correct: a remote rm exiting 1 yields
SSHConfirmExitError (some 1). -/
theorem confirm_profile_correct_witness :
    confirm_profile sampleData sampleDefs ("/tmp") ("admin@example.com")
      (.exited (some 1)) = .error (.SSHConfirmExitError (some 1)) :=
  (confirm_profile_correct sampleData sampleDefs ("/tmp") ("admin@example.com")
    (.exited (some 1))).2.2 (some 1) rfl (by decide)

/-- Claim C7: with magic-rollback disabled (simple mode), deploy_profile runs
the activate command to completion and returns Ok iff it exits 0; a transport
failure yields SSHActivateError and any other exit outcome yields
SSHActivateExitError; no wait command is constructed or run and the
confirmation handshake is never invoked. -/
theorem simple_mode_correct (dd : DeployData) (defs : DeployDefs) (env : Env)
    (hm : dd.merged_settings.magic_rollback = some false) :
    ((deploy_profile dd defs env).outcome = .ok ↔
      env.activateRes = .exited (some 0)) ∧
    (∀ e, env.activateRes = .err e →
      (deploy_profile dd defs env).outcome = .err (.SSHActivateError e)) ∧
    (∀ a, env.activateRes = .exited a → a ≠ some 0 →
      (deploy_profile dd defs env).outcome = .err (.SSHActivateExitError a)) ∧
    (deploy_profile dd defs env).waitRan = false ∧
    (deploy_profile dd defs env).waitCmd = none ∧
    (deploy_profile dd defs env).confirmTemp = none ∧
    (deploy_profile dd defs env).confirmCmd = none := by
  obtain ⟨sp, ares, wres, cres, abw⟩ := env
  rcases ares with e | code
  · simp [deploy_profile, hm]
  · by_cases h0 : code = some 0
    · subst h0
      simp [deploy_profile, hm]
    · simp [deploy_profile, hm, h0]

/-- Witness for simple_mode_correct: in simple mode with a clean zero exit the
call returns Ok. -/
theorem simple_mode_correct_witness :
    (deploy_profile simpleModeData sampleDefs envHappy).outcome = .ok :=
  (simple_mode_correct simpleModeData sampleDefs envHappy rfl).1.mpr rfl

/-- Claim C2: in magic-rollback mode, when the activation process fails
strictly before the wait command resolves, deploy_profile returns exactly the
failure computed by the activation-await task (SSHActivateError for a
transport error, SSHActivateExitError for a non-zero or absent exit code),
never invokes the confirmation handshake, and its entire result is
independent of the wait command's outcome. -/
theorem activation_failure_preempts_wait (dd : DeployData) (defs : DeployDefs)
    (env : Env) (e : DeployProfileError)
    (hm : (dd.merged_settings.magic_rollback).getD true = true)
    (hs : env.spawnErr = none)
    (hb : env.activateBeforeWait = true)
    (hf : activate_error env.activateRes = some e) :
    (deploy_profile dd defs env).outcome = .err e ∧
    (deploy_profile dd defs env).confirmTemp = none ∧
    (deploy_profile dd defs env).confirmCmd = none ∧
    (∀ w, deploy_profile dd defs { env with waitRes := w } =
      deploy_profile dd defs env) := by
  refine ⟨?_, ?_, ?_, ?_⟩ <;>
    simp [deploy_profile, hm, hs, hb, hf]

/-- Witness for activation_failure_preempts_wait: activation exiting 1 before
the wait resolves makes the call return SSHActivateExitError (some 1). -/
theorem activation_failure_preempts_wait_witness :
    (deploy_profile sampleData sampleDefs envPreempt).outcome =
      .err (.SSHActivateExitError (some 1)) :=
  (activation_failure_preempts_wait sampleData sampleDefs envPreempt
    (.SSHActivateExitError (some 1)) rfl rfl rfl (by decide)).1

/-- Claim C1 (code-bug evidence): with the wait command already succeeded and
the activation process afterwards exiting 1, deploy_profile panics (both
unwraps on the now-closed oneshot channels fail) instead of returning the
activation failure SSHActivateExitError (some 1) as its final result. -/
theorem late_activation_failure_panics :
    (deploy_profile sampleData sampleDefs envLateActivationFailure).outcome =
      .panicked ∧
    (deploy_profile sampleData sampleDefs envLateActivationFailure).outcome ≠
      .err (.SSHActivateExitError (some 1)) := by
  constructor
  · rfl
  · decide

/-- Claim C3 (counterexample): on the activation-failure preemption path
deploy_profile performs an ordinary error return and its return path has not
awaited the activation-task-terminated notification, refuting the claim that
every return path after spawning awaits it. -/
theorem preempt_returns_without_awaiting :
    (deploy_profile sampleData sampleDefs envPreempt).outcome =
      .err (.SSHActivateExitError (some 1)) ∧
    (deploy_profile sampleData sampleDefs envPreempt).awaitedActivated = false := by
  constructor
  · rfl
  · rfl

/-- Claim C3 (amended): after a successful spawn in magic-rollback mode, the
activation-task-terminated notification is awaited if and only if the wait
command resolved first with exit code 0 (the confirmation path, including a
failing confirmation); the preemption, wait-transport-error and wait-nonzero
return paths do not await it. -/
theorem awaited_activated_iff_wait_succeeded (dd : DeployData) (defs : DeployDefs)
    (env : Env)
    (hm : (dd.merged_settings.magic_rollback).getD true = true)
    (hs : env.spawnErr = none) :
    (deploy_profile dd defs env).awaitedActivated =
      (!env.activateBeforeWait && exit_zero env.waitRes) := by
  rcases hb : env.activateBeforeWait with _ | _
  · rcases hw : env.waitRes with e | code
    · simp [deploy_profile, exit_zero, hm, hs, hb, hw]
    · by_cases h0 : code = some 0
      · subst h0
        simp [deploy_profile, exit_zero, hm, hs, hb, hw]
        repeat' split
        all_goals rfl
      · simp [deploy_profile, exit_zero, hm, hs, hb, hw, h0]
  · simp [deploy_profile, hm, hs, hb]
    repeat' split
    all_goals rfl

/-- Witness for awaited_activated_iff_wait_succeeded: on the clean success
path the notification is awaited. -/
theorem awaited_activated_iff_wait_succeeded_witness :
    (deploy_profile sampleData sampleDefs envHappy).awaitedActivated = true :=
  (awaited_activated_iff_wait_succeeded sampleData sampleDefs envHappy rfl
    rfl).trans (by decide)

/-- Claim C8: when the confirmation handshake is invoked (wait resolved first
with exit 0 and the activation process exited 0) and the remote rm exits with
a non-zero or absent code, deploy_profile returns
DeployProfileError.ConfirmError wrapping the originating
SSHConfirmExitError. -/
theorem confirm_failure_surfaces (dd : DeployData) (defs : DeployDefs) (env : Env)
    (a : Option Int)
    (hm : (dd.merged_settings.magic_rollback).getD true = true)
    (hs : env.spawnErr = none)
    (hb : env.activateBeforeWait = false)
    (hw : env.waitRes = .exited (some 0))
    (ha : env.activateRes = .exited (some 0))
    (hc : env.confirmRes = .exited a) (hne : a ≠ some 0) :
    (deploy_profile dd defs env).outcome =
      .err (.ConfirmError (.SSHConfirmExitError a)) ∧
    (deploy_profile dd defs env).confirmTemp ≠ none := by
  constructor <;>
    simp [deploy_profile, confirm_profile, activate_error, hm, hs, hb, hw, ha,
      hc, hne]

/-- Witness for confirm_failure_surfaces: the confirmation rm exiting 1 makes
the call return ConfirmError (SSHConfirmExitError (some 1)). -/
theorem confirm_failure_surfaces_witness :
    (deploy_profile sampleData sampleDefs envConfirmFail).outcome =
      .err (.ConfirmError (.SSHConfirmExitError (some 1))) :=
  (confirm_failure_surfaces sampleData sampleDefs envConfirmFail (some 1)
    rfl rfl rfl rfl rfl rfl (by decide)).1

/-- Claim C9: deploy_profile resolves each optional setting to its configured
value when present and otherwise to the documented default (temp path /tmp,
confirm timeout 30, magic-rollback true, auto-rollback true); the resolved
values are the ones rendered into the activate command it constructs, and the
resolved magic-rollback flag decides whether a wait command is constructed. -/
theorem deploy_profile_defaults (dd : DeployData) (defs : DeployDefs) (env : Env)
    (tp : String) (n : Nat) (mr ar : Bool)
    (htp : dd.merged_settings.temp_path = some tp ∨
      (dd.merged_settings.temp_path = none ∧ tp = "/tmp"))
    (hct : dd.merged_settings.confirm_timeout = some n ∨
      (dd.merged_settings.confirm_timeout = none ∧ n = 30))
    (hmr : dd.merged_settings.magic_rollback = some mr ∨
      (dd.merged_settings.magic_rollback = none ∧ mr = true))
    (har : dd.merged_settings.auto_rollback = some ar ∨
      (dd.merged_settings.auto_rollback = none ∧ ar = true)) :
    (deploy_profile dd defs env).activateCmd = build_activate_command
      { sudo_cmd := defs.sudo_cmd, profile_path := defs.profile_path,
        closure := dd.profile.profile_settings.path, auto_rollback := ar,
        temp_path := tp, confirm_timeout := n, magic_rollback := mr,
        debug_logs := dd.debug_logs, log_dir := dd.log_dir } ∧
    (deploy_profile dd defs env).waitCmd =
      (if mr then
        some (build_wait_command
          { sudo_cmd := defs.sudo_cmd, closure := dd.profile.profile_settings.path,
            temp_path := tp, debug_logs := dd.debug_logs, log_dir := dd.log_dir })
       else none) := by
  have htp2 : (dd.merged_settings.temp_path).getD ("/tmp") = tp := by
    rcases htp with h | ⟨h, rfl⟩ <;> simp [h]
  have hct2 : (dd.merged_settings.confirm_timeout).getD 30 = n := by
    rcases hct with h | ⟨h, rfl⟩ <;> simp [h]
  have hmr2 : (dd.merged_settings.magic_rollback).getD true = mr := by
    rcases hmr with h | ⟨h, rfl⟩ <;> simp [h]
  have har2 : (dd.merged_settings.auto_rollback).getD true = ar := by
    rcases har with h | ⟨h, rfl⟩ <;> simp [h]
  constructor
  · rw [deploy_profile_activateCmd, htp2, hct2, hmr2, har2]
  · rw [deploy_profile_waitCmd, htp2, hmr2]

/-- Witness for deploy_profile_defaults: with every setting unset the activate
command is built with /tmp, 30, magic-rollback and auto-rollback. -/
theorem deploy_profile_defaults_witness :
    (deploy_profile sampleData sampleDefs envHappy).activateCmd =
      build_activate_command
        { sudo_cmd := sampleDefs.sudo_cmd, profile_path := sampleDefs.profile_path,
          closure := sampleData.profile.profile_settings.path, auto_rollback := true,
          temp_path := "/tmp", confirm_timeout := 30, magic_rollback := true,
          debug_logs := sampleData.debug_logs, log_dir := sampleData.log_dir } :=
  (deploy_profile_defaults sampleData sampleDefs envHappy ("/tmp") 30 true true
    (Or.inr ⟨rfl, rfl⟩) (Or.inr ⟨rfl, rfl⟩) (Or.inr ⟨rfl, rfl⟩)
    (Or.inr ⟨rfl, rfl⟩)).1

/-- Claim C10: a single temp-path value (the configured one, else /tmp) is
resolved per call and that same value is rendered into the activate command,
into the wait command when one is constructed, and passed as the tempPath
input of the lock-path computation used by the confirmation command when the
handshake is invoked. -/
theorem temp_path_consistent (dd : DeployData) (defs : DeployDefs) (env : Env) :
    (deploy_profile dd defs env).activateCmd = build_activate_command
      { sudo_cmd := defs.sudo_cmd, profile_path := defs.profile_path,
        closure := dd.profile.profile_settings.path,
        auto_rollback := (dd.merged_settings.auto_rollback).getD true,
        temp_path := (dd.merged_settings.temp_path).getD ("/tmp"),
        confirm_timeout := (dd.merged_settings.confirm_timeout).getD 30,
        magic_rollback := (dd.merged_settings.magic_rollback).getD true,
        debug_logs := dd.debug_logs, log_dir := dd.log_dir } ∧
    ((deploy_profile dd defs env).waitCmd = none ∨
      (deploy_profile dd defs env).waitCmd = some (build_wait_command
        { sudo_cmd := defs.sudo_cmd, closure := dd.profile.profile_settings.path,
          temp_path := (dd.merged_settings.temp_path).getD ("/tmp"),
          debug_logs := dd.debug_logs, log_dir := dd.log_dir })) ∧
    ((deploy_profile dd defs env).confirmTemp = none ∨
      (deploy_profile dd defs env).confirmTemp =
        some ((dd.merged_settings.temp_path).getD ("/tmp"))) ∧
    ((deploy_profile dd defs env).confirmCmd = none ∨
      (deploy_profile dd defs env).confirmCmd =
        some (confirm_profile_command dd defs
          ((dd.merged_settings.temp_path).getD ("/tmp")))) := by
  simp only [deploy_profile]
  repeat' split
  all_goals simp
